import Mathlib

/-!
Verification development for the ZombieYield zombie-asset classification and
scoring engine, its wallet scanner and its scan cache.

The definitions below are shallow embeddings of the TypeScript sources:
machine numbers become Nat/Int/Rat (with Real only where the source computes
with log2), asynchronous ledger calls become explicit response data passed as
arguments, and the module-level cache Map becomes an association list threaded
through the operations.
-/

namespace ZombieYield

/- ### Data model (src/types/index.ts) -/

inductive AssetType
| token
| nft
deriving DecidableEq, Repr

inductive AssetStatus
| undead
| active
| claimed
deriving DecidableEq, Repr

inductive AssetCategory
| dust_token
| dormant_token
| abandoned_nft
| dead_project
deriving DecidableEq, Repr

/-- ZombieScore record: real-valued factors, with the rounded total as an integer. -/
structure ZombieScore where
  base : ℝ
  balanceMultiplier : ℝ
  dormancyBonus : ℝ
  categoryRate : ℝ
  total : ℤ

/-- One detected holding.  Decimal quantities from the source are embedded as
rationals (token balances are `amount / 10^decimals`, an exact rational). -/
structure ZombieAsset where
  type : AssetType
  mint : String
  name : String
  symbol : Option String
  balance : Option ℚ
  status : AssetStatus
  category : Option AssetCategory
  zombieScore : Option ZombieScore
  usdValue : Option ℚ
  lastActivityDaysAgo : Option ℕ

/- ### Points engine (src/lib/pointsEngine.ts, unnamed/part_002) -/

structure PointsConfig where
  basePointsPerAsset : ℚ
  multiplier : ℚ

def DEFAULT_POINTS_CONFIG : PointsConfig :=
  { basePointsPerAsset := 10, multiplier := 1 }

/-- Category-based point rates per day (`CATEGORY_RATES`). -/
def CATEGORY_RATES : AssetCategory → ℚ
  | .dust_token => 5
  | .dormant_token => 15
  | .abandoned_nft => 20
  | .dead_project => 25

/-- `calculateZombieScore` from lib/pointsEngine.ts.  `Math.round x` is
`round x = ⌊x + 1/2⌋`, matching JavaScript on all inputs the app produces. -/
noncomputable def calculateZombieScore (asset : ZombieAsset) : ZombieScore :=
  let categoryRate : ℝ :=
    match asset.category with
    | some c => ((CATEGORY_RATES c : ℚ) : ℝ)
    | none => 10
  let balance : ℝ := ((asset.balance.getD 1 : ℚ) : ℝ)
  let rawBalanceMult : ℝ := Real.logb 2 (balance + 1)
  let balanceMultiplier : ℝ := min (max rawBalanceMult 1) 5
  let dormancyDays : ℝ := ((asset.lastActivityDaysAgo.getD 0 : ℕ) : ℝ)
  let dormancyBonus : ℝ := min (dormancyDays / 30 * 0.5) 3
  let base : ℝ := categoryRate
  let total : ℤ := round (base * balanceMultiplier * (1 + dormancyBonus))
  { base := base, balanceMultiplier := balanceMultiplier,
    dormancyBonus := dormancyBonus, categoryRate := categoryRate, total := total }

/-- `calculatePointsPerDayFromAssets`: sum of per-asset score totals, using a
precomputed `zombieScore` when present. -/
noncomputable def calculatePointsPerDayFromAssets (assets : List ZombieAsset) : ℤ :=
  assets.foldl (fun sum asset => sum + (asset.zombieScore.getD (calculateZombieScore asset)).total) 0

structure PointsResult where
  pointsPerDay : ℝ
  totalPoints : ℤ
  multiplier : ℚ
  daysActive : ℝ
  lastUpdated : ℤ

/-- Legacy flat-rate `calculatePoints`; `Date.now()` is passed in as `now`
(milliseconds). -/
noncomputable def calculatePoints (zombieCount : ℕ) (walletConnectedAt now : ℤ)
    (config : PointsConfig) : PointsResult :=
  let pointsPerDay : ℝ := (((zombieCount : ℚ) * config.basePointsPerAsset * config.multiplier : ℚ) : ℝ)
  let elapsedMs : ℤ := max 0 (now - walletConnectedAt)
  let daysActive : ℝ := (elapsedMs : ℝ) / (1000 * 60 * 60 * 24)
  let totalPoints : ℤ := ⌊pointsPerDay * daysActive⌋
  { pointsPerDay := pointsPerDay, totalPoints := totalPoints,
    multiplier := config.multiplier, daysActive := min daysActive 365, lastUpdated := now }

/-- Category-aware `calculatePointsFromAssets`. -/
noncomputable def calculatePointsFromAssets (assets : List ZombieAsset)
    (walletConnectedAt now : ℤ) : PointsResult :=
  let pointsPerDay : ℝ := ((calculatePointsPerDayFromAssets assets : ℤ) : ℝ)
  let elapsedMs : ℤ := max 0 (now - walletConnectedAt)
  let daysActive : ℝ := (elapsedMs : ℝ) / (1000 * 60 * 60 * 24)
  let totalPoints : ℤ := ⌊pointsPerDay * daysActive⌋
  { pointsPerDay := pointsPerDay, totalPoints := totalPoints,
    multiplier := 1, daysActive := min daysActive 365, lastUpdated := now }

/-- Spec-side clamp helper, used only to state the specification formulas:
`clamp(x, lo, hi)`. -/
def specClamp (x lo hi : ℝ) : ℝ := min (max x lo) hi

/- ### String helpers (JS `toLowerCase` and `includes`) -/

/-- `String.prototype.toLowerCase` (the app only handles ASCII identifiers). -/
def toLowerCase (s : String) : String := String.mk (s.data.map Char.toLower)

def containsList (sub : List Char) : List Char → Bool
  | [] => sub.isEmpty
  | c :: t => List.isPrefixOf sub (c :: t) || containsList sub t

/-- `String.prototype.includes`. -/
def containsSubstr (s sub : String) : Bool := containsList sub.data s.data

/- ### Allowlist configuration (src/config/zombieAllowlist.ts) -/

def bonkMint : String := "DezXAZ8z7PnrnRJjz3wXBoRgixCa6xjnB7YaB1pPB263"

def popcatMint : String := "7GCihgDB8fe6KNjn2MYtkzZcRjQy3t9GHdC8uHYmW2hr"

def wifMint : String := "EKpQGSJtjMFqKZ9KQanSqYXRcF8fBopzLHYxdM65zcjm"

def jupMint : String := "JUPyiwrYJFskUPiHa7hkeR8VUtAeFoSYbKedZNsDvCN"

def rndrMint : String := "rndrizKT3MK1iimdxRdWabcF7Zg7AR5T4nud4EkHBof"

def ZOMBIE_TOKEN_MINTS : List String := [bonkMint, popcatMint, wifMint, jupMint, rndrMint]

/-- `zombieTokenSet`: the allowlist lowercased once at module load. -/
def zombieTokenSet : List String := ZOMBIE_TOKEN_MINTS.map toLowerCase

structure TokenMeta where
  symbol : String
  name : String
deriving DecidableEq, Repr

/-- `tokenMetadata`: display metadata keyed by the (mixed-case) mint string. -/
def tokenMetadata : List (String × TokenMeta) :=
  [(bonkMint, { symbol := "BONK", name := "Bonk" }),
   (popcatMint, { symbol := "POPCAT", name := "Popcat" }),
   (wifMint, { symbol := "WIF", name := "dogwifhat" }),
   (jupMint, { symbol := "JUP", name := "Jupiter" }),
   (rndrMint, { symbol := "RNDR", name := "Render Token" })]

/-- `getTokenMetadata(mint)`: object access `tokenMetadata[mint.toLowerCase()]`. -/
def getTokenMetadata (mint : String) : Option TokenMeta :=
  tokenMetadata.lookup (toLowerCase mint)

/- ### Scanner (src/hooks/useScanner.ts, unnamed/part_006) -/

/-- One SPL token account as decoded by `parseTokenAccountData` (mint string,
u64 amount, u8 decimals). -/
structure TokenAccount where
  mint : String
  amount : ℕ
  decimals : ℕ
deriving DecidableEq, Repr

/-- Decoded Metaplex metadata relevant to the scan (name/symbol). -/
structure NftMeta where
  name : String
  symbol : String
deriving DecidableEq, Repr

/-- The external responses one scan consumes: the token-account enumeration
(which can fail with an error message), NFT metadata by mint, USD prices by
mint, the per-account `checkDormancy` result (days, `365` for no activity,
`-1` for unknown), and the wallet SOL balance. -/
structure LedgerResponses where
  tokenAccounts : Except String (List TokenAccount)
  nftMeta : String → Option NftMeta
  prices : String → Option ℚ
  dormancy : String → ℤ
  solBalance : ℚ

/-- `shouldFilterToken`: anti-abuse filter, drops zero balances. -/
def shouldFilterToken (amount : ℕ) : Bool := amount == 0

def str403 : String := "403"

def strForbidden : String := "forbidden"

def strTimedOut : String := "timed out"

def rpcAccessDeniedMsg : String := "RPC access denied. Please check your RPC endpoint."

def rpcTimeoutMsg : String := "RPC request timed out. Please try again."

/-- Message of the rejection produced by the scan timeout promise (10s). -/
def rpcTimeoutRejectMsg : String := "RPC request timed out"

/-- The error-message mapping in the catch block of
`fetchTokenAccountsWithTimeout`. -/
def fetchErrorMessage (msg : String) : String :=
  if containsSubstr msg str403 || containsSubstr msg strForbidden then rpcAccessDeniedMsg
  else if containsSubstr msg strTimedOut then rpcTimeoutMsg
  else msg

/-- `fetchTokenAccountsWithTimeout`: relays a successful enumeration, and maps
failure messages to the user-facing strings. -/
def fetchTokenAccountsWithTimeout (result : Except String (List TokenAccount)) :
    Except String (List TokenAccount) :=
  match result with
  | .ok v => .ok v
  | .error msg => .error (fetchErrorMessage msg)

def unknownTokenNameStr : String := "Unknown Token"

def emptyStr : String := ""

/-- The token-scanning loop of `scanWallet`/`refetch`: decode each account,
drop filtered (zero-amount) accounts, keep allowlisted mints with positive
amount, and resolve display metadata (the JS name fallback to "Unknown Token"
falls back on a missing entry or an empty name). -/
def scanTokenAssets (accounts : List TokenAccount) : List ZombieAsset :=
  accounts.filterMap fun acc =>
    if shouldFilterToken acc.amount then none
    else if zombieTokenSet.contains (toLowerCase acc.mint) ∧ 0 < acc.amount then
      let metadata := getTokenMetadata acc.mint
      some { type := .token, mint := acc.mint,
             name := match metadata with
                     | some m => if m.name = emptyStr then unknownTokenNameStr else m.name
                     | none => unknownTokenNameStr,
             symbol := metadata.map TokenMeta.symbol,
             balance := some ((acc.amount : ℚ) / (10 : ℚ) ^ acc.decimals),
             status := .undead, category := none, zombieScore := none,
             usdValue := none, lastActivityDaysAgo := none }
    else none

def howloadStr : String := "howload"

def howloudStr : String := "howloud"

def howloadMonkeyStr : String := "Howload Monkey"

def howloudMonkeyStr : String := "Howloud! Monkey"

def nftFallbackSymbolStr : String := "NFT"

/-- `scanNfts`: candidate NFTs are accounts with amount exactly 1; resolve
metadata (a missing or failed metadata fetch skips the candidate) and keep
holdings whose lowercased name contains one of the dead-collection patterns. -/
def scanNfts (accounts : List TokenAccount) (nftMeta : String → Option NftMeta) :
    List ZombieAsset :=
  let nftMints := accounts.filterMap fun acc =>
    if acc.amount = 1 then some acc.mint else none
  let metadataResults := nftMints.filterMap fun m => (nftMeta m).map fun md => (m, md)
  metadataResults.filterMap fun r =>
    let nameLower := toLowerCase r.2.name
    if containsSubstr nameLower howloadStr then
      some { type := .nft, mint := r.1, name := howloadMonkeyStr,
             symbol := some (if r.2.symbol = emptyStr then nftFallbackSymbolStr else r.2.symbol),
             balance := none, status := .undead, category := none, zombieScore := none,
             usdValue := none, lastActivityDaysAgo := none }
    else if containsSubstr nameLower howloudStr then
      some { type := .nft, mint := r.1, name := howloudMonkeyStr,
             symbol := some (if r.2.symbol = emptyStr then nftFallbackSymbolStr else r.2.symbol),
             balance := none, status := .undead, category := none, zombieScore := none,
             usdValue := none, lastActivityDaysAgo := none }
    else none

/-- Modelled from the spec: `isDeadProjectMint` is imported by the scanner from
the allowlist configuration, but no definition of it (or of the dead-project
mint list) appears in the available sources.  The spec says only that it tests
whether "the mint identifier is in a separate dead-project allowlist", so the
allowlist is taken as an explicit parameter and the test is membership. -/
def isDeadProjectMint (deadProjectMints : List String) (mint : String) : Bool :=
  deadProjectMints.contains mint

/-- `classifyTokenAsset`: pure category assignment, rules in order. -/
def classifyTokenAsset (deadProjectMints : List String) (mint : String) (balance : ℚ)
    (usdPrice : Option ℚ) (dormancyDays : ℤ) : AssetCategory :=
  if isDeadProjectMint deadProjectMints mint then .dead_project
  else
    let usdValue : Option ℚ := usdPrice.map fun p => balance * p
    if (match usdValue with
        | some v => decide (v < (0.1 : ℚ))
        | none => false) then .dust_token
    else if 90 ≤ dormancyDays then .dormant_token
    else .dormant_token

/-- The classify-and-score pass of `scanWallet`: token assets get a price, a
dormancy check limited to the first 5 token mints, a category, and a score;
NFT assets default to `abandoned_nft` and get a score. -/
noncomputable def classifyAndScoreScan (deadProjectMints : List String)
    (resp : LedgerResponses) (tokenMints : List String) (asset : ZombieAsset) : ZombieAsset :=
  let a :=
    if asset.type = .token then
      let usdPrice := resp.prices asset.mint
      let usdValue : Option ℚ :=
        match usdPrice, asset.balance with
        | some p, some b => some (b * p)
        | _, _ => none
      let dormancyDays : ℤ :=
        if tokenMints.findIdx (fun m => m == asset.mint) < 5 then resp.dormancy asset.mint else -1
      { asset with usdValue := usdValue,
                   lastActivityDaysAgo := if 0 ≤ dormancyDays then some dormancyDays.toNat else none,
                   category := some (classifyTokenAsset deadProjectMints asset.mint
                     (asset.balance.getD 0) usdPrice (if 0 ≤ dormancyDays then dormancyDays else 0)) }
    else { asset with category := some .abandoned_nft }
  { a with zombieScore := some (calculateZombieScore a) }

/-- The classify-and-score pass of `refetch`: identical except that no dormancy
lookup happens at all — classification receives dormancy `0` and
`lastActivityDaysAgo` is never set. -/
noncomputable def classifyAndScoreRefetch (deadProjectMints : List String)
    (resp : LedgerResponses) (asset : ZombieAsset) : ZombieAsset :=
  let a :=
    if asset.type = .token then
      let usdPrice := resp.prices asset.mint
      let usdValue : Option ℚ :=
        match usdPrice, asset.balance with
        | some p, some b => some (b * p)
        | _, _ => none
      { asset with usdValue := usdValue,
                   category := some (classifyTokenAsset deadProjectMints asset.mint
                     (asset.balance.getD 0) usdPrice 0) }
    else { asset with category := some .abandoned_nft }
  { a with zombieScore := some (calculateZombieScore a) }

/- ### Demo-mode mock assets (src/lib/devModeAssets.ts) -/

def strTrue : String := "true"

/-- `isDevModeEnabled`: enabled unless VITE_DISABLE_DEMO_ASSETS equals "true";
the value of the environment variable is passed in. -/
def isDevModeEnabled (disableDemoAssetsEnv : String) : Bool :=
  if disableDemoAssetsEnv == strTrue then false else true

structure MockAssetTier where
  minBalance : ℚ
  maxBalance : Option ℚ
  assets : List ZombieAsset
  description : String

def madLadsDemoMint : String := "mad_lads_demo_nft_001"

def nameBonkStr : String := "Bonk"

def symBonkStr : String := "BONK"

def nameWifStr : String := "dogwifhat"

def symWifStr : String := "WIF"

def nameJupStr : String := "Jupiter"

def symJupStr : String := "JUP"

def namePopcatStr : String := "Popcat"

def symPopcatStr : String := "POPCAT"

def mkMockToken (mint name symbol : String) (balance : ℚ) : ZombieAsset :=
  { type := .token, mint := mint, name := name, symbol := some symbol,
    balance := some balance, status := .undead, category := none,
    zombieScore := none, usdValue := none, lastActivityDaysAgo := none }

/-- `MOCK_ASSET_TIERS`: SOL-balance tiers and their demo assets. -/
def MOCK_ASSET_TIERS : List MockAssetTier :=
  [{ minBalance := 0, maxBalance := some (mkRat 1 2), assets := [],
     description := "Starter Zombie" },
   { minBalance := mkRat 1 2, maxBalance := some 1,
     assets := [mkMockToken bonkMint nameBonkStr symBonkStr 1000000],
     description := "Bonk Holder" },
   { minBalance := 1, maxBalance := some 2,
     assets := [mkMockToken bonkMint nameBonkStr symBonkStr 1000000,
                mkMockToken wifMint nameWifStr symWifStr 500],
     description := "Zombie Collector" },
   { minBalance := 2, maxBalance := some 5,
     assets := [mkMockToken bonkMint nameBonkStr symBonkStr 2000000,
                mkMockToken wifMint nameWifStr symWifStr 1000,
                mkMockToken jupMint nameJupStr symJupStr 500],
     description := "Mad Lad Investor" },
   { minBalance := 5, maxBalance := none,
     assets := [mkMockToken bonkMint nameBonkStr symBonkStr 5000000,
                mkMockToken wifMint nameWifStr symWifStr 2500,
                mkMockToken jupMint nameJupStr symJupStr 1000,
                mkMockToken popcatMint namePopcatStr symPopcatStr 750,
                { type := .nft, mint := madLadsDemoMint, name := "Mad Lad #1337",
                  symbol := some "MADLAD", balance := none, status := .undead,
                  category := none, zombieScore := none, usdValue := none,
                  lastActivityDaysAgo := none }],
     description := "Zombie Whale" }]

/-- `getMockAssetsForBalance`: first tier whose half-open balance range holds
the SOL balance (the last tier is unbounded above). -/
def getMockAssetsForBalance (solBalance : ℚ) : List ZombieAsset :=
  match MOCK_ASSET_TIERS.find? (fun t =>
      match t.maxBalance with
      | none => decide (t.minBalance ≤ solBalance)
      | some mx => decide (t.minBalance ≤ solBalance) && decide (solBalance < mx)) with
  | none => []
  | some t =>
    if t.assets.length = 0 then []
    else t.assets.map fun a => { a with status := .undead }

/-- `injectDevModeAssets`: outside demo mode the real assets pass through;
in demo mode the mock assets of the tier are appended, skipping any mock whose
(mint, type) already occurs in the list built so far. -/
def injectDevModeAssets (disableDemoAssetsEnv : String) (resp : LedgerResponses)
    (realAssets : List ZombieAsset) : List ZombieAsset :=
  if !(isDevModeEnabled disableDemoAssetsEnv) then realAssets
  else
    let mockAssets := getMockAssetsForBalance resp.solBalance
    mockAssets.foldl (fun combined m =>
      if combined.any fun a => decide (a.mint = m.mint ∧ a.type = m.type) then combined
      else combined ++ [m]) realAssets

/- ### Scan cache (module-level Map in useScanner.ts) -/

structure ScanCacheEntry where
  assets : List ZombieAsset
  timestamp : ℤ
  network : String

def Cache : Type := List (String × ScanCacheEntry)

def CACHE_TTL_MS : ℤ := 5 * 60 * 1000

def eraseEntry (cache : Cache) (addr : String) : Cache :=
  List.filter (fun e => !(e.1 == addr)) cache

/-- `getCachedResult`: a cached value is returned only when the entry exists,
its network matches and its age is within the TTL; an expired entry is deleted. -/
def getCachedResult (cache : Cache) (currentNetwork : String) (now : ℤ)
    (walletAddress : String) : Option (List ZombieAsset) × Cache :=
  match List.lookup walletAddress cache with
  | none => (none, cache)
  | some entry =>
    if !(entry.network == currentNetwork) then (none, cache)
    else
      let age := now - entry.timestamp
      if CACHE_TTL_MS < age then (none, eraseEntry cache walletAddress)
      else (some entry.assets, cache)

/-- `cacheResult`: unconditional overwrite with the current time and network. -/
def cacheResult (cache : Cache) (currentNetwork : String) (now : ℤ)
    (walletAddress : String) (assets : List ZombieAsset) : Cache :=
  (walletAddress, { assets := assets, timestamp := now, network := currentNetwork })
    :: eraseEntry cache walletAddress

/- ### The scan and refetch operations -/

inductive ScanOutcome
| skipped (cache : Cache)
| success (assets : List ZombieAsset) (cache : Cache)
| failure (error : String) (cache : Cache)

/-- The real (non-demo) asset pipeline of `scanWallet`: token scan, NFT scan,
then the classify-and-score pass with the token-mint list of the scan. -/
noncomputable def realScanAssets (deadProjectMints : List String) (resp : LedgerResponses)
    (accounts : List TokenAccount) : List ZombieAsset :=
  let assets := scanTokenAssets accounts ++ scanNfts accounts resp.nftMeta
  let tokenMints := (assets.filter fun a => decide (a.type = .token)).map ZombieAsset.mint
  assets.map (classifyAndScoreScan deadProjectMints resp tokenMints)

/-- `scanWallet`: cache check (a hit with `scanComplete` set short-circuits),
holdings enumeration with error mapping, the asset pipeline, demo-mode
injection into the returned list, and caching of the real assets only. -/
noncomputable def scanWallet (deadProjectMints : List String) (disableDemoAssetsEnv : String)
    (resp : LedgerResponses) (cache : Cache) (currentNetwork walletAddress : String)
    (now : ℤ) (scanComplete : Bool) : ScanOutcome :=
  let r := getCachedResult cache currentNetwork now walletAddress
  if r.1.isSome ∧ scanComplete = true then .skipped r.2
  else
    match fetchTokenAccountsWithTimeout resp.tokenAccounts with
    | .error msg => .failure msg r.2
    | .ok accounts =>
      let assets := realScanAssets deadProjectMints resp accounts
      let combinedAssets := injectDevModeAssets disableDemoAssetsEnv resp assets
      .success combinedAssets (cacheResult r.2 currentNetwork now walletAddress assets)

/-- The real asset pipeline of `refetch`, which classifies every token with
dormancy `0`. -/
noncomputable def realRefetchAssets (deadProjectMints : List String) (resp : LedgerResponses)
    (accounts : List TokenAccount) : List ZombieAsset :=
  let assets := scanTokenAssets accounts ++ scanNfts accounts resp.nftMeta
  assets.map (classifyAndScoreRefetch deadProjectMints resp)

/-- `refetch`: deletes the cache entry, always runs the full scan (no cache
check), and repopulates the cache with the real assets. -/
noncomputable def refetchWallet (deadProjectMints : List String) (disableDemoAssetsEnv : String)
    (resp : LedgerResponses) (cache : Cache) (currentNetwork walletAddress : String)
    (now : ℤ) : ScanOutcome :=
  let cache0 := eraseEntry cache walletAddress
  match fetchTokenAccountsWithTimeout resp.tokenAccounts with
  | .error msg => .failure msg cache0
  | .ok accounts =>
    let assets := realRefetchAssets deadProjectMints resp accounts
    let combinedAssets := injectDevModeAssets disableDemoAssetsEnv resp assets
    .success combinedAssets (cacheResult cache0 currentNetwork now walletAddress assets)

def scanOutcomeAssets : ScanOutcome → Option (List ZombieAsset)
  | .skipped _ => none
  | .success a _ => some a
  | .failure _ _ => none

def scanOutcomeCache : ScanOutcome → Cache
  | .skipped c => c
  | .success _ c => c
  | .failure _ c => c

def scanOutcomeError : ScanOutcome → Option String
  | .failure e _ => some e
  | _ => none

/- ### Concrete fixtures used by witnesses and counterexamples -/

def baseAsset : ZombieAsset :=
  { type := .token, mint := bonkMint, name := unknownTokenNameStr, symbol := none,
    balance := none, status := .undead, category := none, zombieScore := none,
    usdValue := none, lastActivityDaysAgo := none }

def asset90d : ZombieAsset := { baseAsset with lastActivityDaysAgo := some 90 }

def c1asset : ZombieAsset :=
  { baseAsset with balance := some 10, category := some .dormant_token,
                   lastActivityDaysAgo := some 180 }

def c3score : ZombieScore :=
  { base := 1, balanceMultiplier := 1, dormancyBonus := 0, categoryRate := 1, total := 1 }

def c3asset : ZombieAsset := { baseAsset with zombieScore := some c3score }

/- ### C1 — zombie score formula -/

/-- C1: for every asset with an assigned category, the score total equals
`round(categoryRate × clamp(log2(balance + 1), 1, 5) × (1 + clamp((d / 30) × 0.5, 0, 3)))`
with the category-rate lookup DustToken=5, DormantToken=15, AbandonedNFT=20,
DeadProject=25, an absent balance treated as 1 and dormancy days d ≥ 0 (absent
treated as 0). -/
theorem calculateZombieScore_total_formula (a : ZombieAsset) (c : AssetCategory)
    (hc : a.category = some c) :
    (calculateZombieScore a).total =
      round (((CATEGORY_RATES c : ℚ) : ℝ) *
        specClamp (Real.logb 2 (((a.balance.getD 1 : ℚ) : ℝ) + 1)) 1 5 *
        (1 + specClamp (((a.lastActivityDaysAgo.getD 0 : ℕ) : ℝ) / 30 * 0.5) 0 3)) := by
  have h0 : (0:ℝ) ≤ ((a.lastActivityDaysAgo.getD 0 : ℕ) : ℝ) / 30 * 0.5 := by positivity
  simp only [calculateZombieScore, specClamp, hc]
  rw [max_eq_left h0]

theorem calculateZombieScore_total_formula_witness :
    (calculateZombieScore c1asset).total =
      round (((CATEGORY_RATES AssetCategory.dormant_token : ℚ) : ℝ) *
        specClamp (Real.logb 2 (((c1asset.balance.getD 1 : ℚ) : ℝ) + 1)) 1 5 *
        (1 + specClamp (((c1asset.lastActivityDaysAgo.getD 0 : ℕ) : ℝ) / 30 * 0.5) 0 3)) :=
  calculateZombieScore_total_formula c1asset AssetCategory.dormant_token rfl

/- ### C9 — dormancy bonus properties -/

/-- C9: the dormancy bonus lies in [0, 3], is monotone non-decreasing in the
dormancy days, and equals exactly 1.5 at 90 days. -/
theorem dormancyBonus_bounds_mono_90 :
    (∀ a : ZombieAsset, 0 ≤ (calculateZombieScore a).dormancyBonus ∧
        (calculateZombieScore a).dormancyBonus ≤ 3) ∧
    (∀ a b : ZombieAsset,
        a.lastActivityDaysAgo.getD 0 ≤ b.lastActivityDaysAgo.getD 0 →
        (calculateZombieScore a).dormancyBonus ≤ (calculateZombieScore b).dormancyBonus) ∧
    (∀ a : ZombieAsset, a.lastActivityDaysAgo = some 90 →
        (calculateZombieScore a).dormancyBonus = 1.5) := by
  refine ⟨fun a => ⟨?_, ?_⟩, fun a b h => ?_, fun a h => ?_⟩
  · simp only [calculateZombieScore]
    exact le_min (by positivity) (by norm_num)
  · simp only [calculateZombieScore]
    exact min_le_right _ _
  · simp only [calculateZombieScore]
    refine min_le_min ?_ le_rfl
    have hc : ((a.lastActivityDaysAgo.getD 0 : ℕ) : ℝ) ≤ ((b.lastActivityDaysAgo.getD 0 : ℕ) : ℝ) := by
      exact_mod_cast h
    linarith
  · simp only [calculateZombieScore, h]
    norm_num

theorem dormancyBonus_bounds_mono_90_witness :
    (0 ≤ (calculateZombieScore asset90d).dormancyBonus ∧
      (calculateZombieScore asset90d).dormancyBonus ≤ 3) ∧
    (calculateZombieScore baseAsset).dormancyBonus ≤ (calculateZombieScore asset90d).dormancyBonus ∧
    (calculateZombieScore asset90d).dormancyBonus = 1.5 :=
  ⟨dormancyBonus_bounds_mono_90.1 asset90d,
   dormancyBonus_bounds_mono_90.2.1 baseAsset asset90d (by decide),
   dormancyBonus_bounds_mono_90.2.2 asset90d rfl⟩

/- ### C3 — aggregate points: the 365-day cap -/

/-- C3 counterexample: with one asset contributing 1 point/day and 730 days
elapsed, `calculatePointsFromAssets` returns totalPoints 730, whereas the
claimed formula `floor(pointsPerDay × min(daysActive, 365))` gives 365: the
code does not cap daysActive when computing totalPoints. -/
theorem calculatePointsFromAssets_no_cap_counterexample :
    (calculatePointsFromAssets [c3asset] 0 63072000000).totalPoints = 730 ∧
    ⌊(calculatePointsFromAssets [c3asset] 0 63072000000).pointsPerDay *
        min (((max 0 (63072000000 - 0) : ℤ) : ℝ) / (1000 * 60 * 60 * 24)) 365⌋ = 365 ∧
    (730 : ℤ) ≠ 365 := by
  have hppd : calculatePointsPerDayFromAssets [c3asset] = 1 := by
    simp [calculatePointsPerDayFromAssets, c3asset, c3score]
  have hmax : max 0 (63072000000 - 0 : ℤ) = 63072000000 := by decide
  refine ⟨?_, ?_, by decide⟩
  · simp only [calculatePointsFromAssets, hppd, hmax]
    rw [show ((1:ℤ):ℝ) * (((63072000000:ℤ) : ℝ) / (1000 * 60 * 60 * 24)) = ((730:ℤ):ℝ) by
      push_cast; norm_num]
    exact Int.floor_intCast 730
  · simp only [calculatePointsFromAssets, hppd, hmax]
    rw [show (((63072000000:ℤ) : ℝ) / (1000 * 60 * 60 * 24)) = 730 by push_cast; norm_num]
    rw [min_eq_right (by norm_num : (365:ℝ) ≤ 730)]
    rw [show ((1:ℤ):ℝ) * (365:ℝ) = ((365:ℤ):ℝ) by push_cast; norm_num]
    exact Int.floor_intCast 365

/-- C3 amended: totalPoints is `floor(pointsPerDay × daysActive)` with the
uncapped `daysActive = max(0, now − walletConnectedAt) / 86_400_000`;
pointsPerDay is the sum of the per-asset score totals; the 365-day cap applies
only to the `daysActive` field of the returned result. -/
theorem calculatePointsFromAssets_formula (assets : List ZombieAsset) (t now : ℤ) :
    (calculatePointsFromAssets assets t now).totalPoints =
      ⌊((calculatePointsPerDayFromAssets assets : ℤ) : ℝ) *
        (((max 0 (now - t) : ℤ) : ℝ) / (1000 * 60 * 60 * 24))⌋ ∧
    (calculatePointsFromAssets assets t now).daysActive =
      min (((max 0 (now - t) : ℤ) : ℝ) / (1000 * 60 * 60 * 24)) 365 ∧
    (calculatePointsFromAssets assets t now).pointsPerDay =
      ((calculatePointsPerDayFromAssets assets : ℤ) : ℝ) :=
  ⟨rfl, rfl, rfl⟩

/- ### C2 — classification rules -/

def mintXStr : String := "deadMintX"

/-- C2: classification is total (always one of dead_project, dust_token,
dormant_token for a token) and evaluates its rules in order with first match
winning: dead-project membership always yields DeadProject; otherwise a
resolved price with value below $0.10 yields DustToken; otherwise DormantToken
regardless of the dormancy value (the d ≥ 90 rule and the default coincide). -/
theorem classifyTokenAsset_rules (dpl : List String) (mint : String) (balance : ℚ)
    (usdPrice : Option ℚ) (d : ℤ) :
    (isDeadProjectMint dpl mint = true →
      classifyTokenAsset dpl mint balance usdPrice d = .dead_project) ∧
    (isDeadProjectMint dpl mint = false → ∀ p, usdPrice = some p → balance * p < 0.1 →
      classifyTokenAsset dpl mint balance usdPrice d = .dust_token) ∧
    (isDeadProjectMint dpl mint = false → (∀ p, usdPrice = some p → ¬ balance * p < 0.1) →
      classifyTokenAsset dpl mint balance usdPrice d = .dormant_token) ∧
    (classifyTokenAsset dpl mint balance usdPrice d = .dead_project ∨
     classifyTokenAsset dpl mint balance usdPrice d = .dust_token ∨
     classifyTokenAsset dpl mint balance usdPrice d = .dormant_token) := by
  refine ⟨fun h => ?_, fun h p hp hlt => ?_, fun h hn => ?_, ?_⟩
  · simp [classifyTokenAsset, h]
  · subst hp
    simp [classifyTokenAsset, h, hlt]
  · cases usdPrice with
    | none => simp [classifyTokenAsset, h]
    | some p => simp [classifyTokenAsset, h, hn p rfl]
  · simp only [classifyTokenAsset]
    split
    · exact Or.inl rfl
    · split
      · exact Or.inr (Or.inl rfl)
      · split
        · exact Or.inr (Or.inr rfl)
        · exact Or.inr (Or.inr rfl)

theorem classifyTokenAsset_rules_witness :
    classifyTokenAsset [mintXStr] mintXStr 1 (some 50) 0 = .dead_project ∧
    classifyTokenAsset [] mintXStr 1 (some (1/100)) 0 = .dust_token ∧
    classifyTokenAsset [] mintXStr 1 none 500 = .dormant_token :=
  ⟨(classifyTokenAsset_rules [mintXStr] mintXStr 1 (some 50) 0).1 (by decide),
   (classifyTokenAsset_rules [] mintXStr 1 (some (1/100)) 0).2.1 (by decide) (1/100) rfl
     (by norm_num),
   (classifyTokenAsset_rules [] mintXStr 1 none 500).2.2.1 (by decide) (fun p hp => nomatch hp)⟩

/- ### C4 — cache round trip -/

def netDevnetStr : String := "devnet"

def netTestnetStr : String := "testnet"

def addrAStr : String := "walletA"

def assetsA : List ZombieAsset := [baseAsset]

def cacheA : Cache := cacheResult [] netDevnetStr 0 addrAStr assetsA

/-- C4 counterexample: a fresh entry read under a different network returns
absent but the entry is NOT evicted — `getCachedResult` returns the cache
unchanged on a network mismatch (only TTL expiry deletes). -/
theorem getCachedResult_network_mismatch_counterexample :
    (getCachedResult cacheA netTestnetStr 0 addrAStr).1 = none ∧
    (getCachedResult cacheA netTestnetStr 0 addrAStr).2 = cacheA ∧
    (List.lookup addrAStr cacheA).isSome = true :=
  ⟨rfl, rfl, rfl⟩

theorem lookup_cacheResult (cache : Cache) (net : String) (t : ℤ) (addr : String)
    (assets : List ZombieAsset) :
    List.lookup addr (cacheResult cache net t addr assets) =
      some { assets := assets, timestamp := t, network := net } := by
  simp [cacheResult, List.lookup]

/-- C4 amended: get after put on the same network within the TTL returns the
stored assets unchanged; after the TTL the entry is evicted and get returns
absent; on a network mismatch get returns absent but leaves the entry in the
cache (no eviction). -/
theorem cache_roundtrip (cache : Cache) (net net2 addr : String)
    (assets : List ZombieAsset) (t now : ℤ) :
    (net2 = net → now - t ≤ CACHE_TTL_MS →
      getCachedResult (cacheResult cache net t addr assets) net2 now addr =
        (some assets, cacheResult cache net t addr assets)) ∧
    (net2 = net → CACHE_TTL_MS < now - t →
      getCachedResult (cacheResult cache net t addr assets) net2 now addr =
        (none, eraseEntry (cacheResult cache net t addr assets) addr)) ∧
    (net2 ≠ net →
      getCachedResult (cacheResult cache net t addr assets) net2 now addr =
        (none, cacheResult cache net t addr assets)) := by
  have hl := lookup_cacheResult cache net t addr assets
  refine ⟨?_, ?_, ?_⟩
  · rintro rfl h
    simp only [getCachedResult, hl, beq_self_eq_true, Bool.not_true, Bool.false_eq_true,
      if_false, if_neg (not_lt.mpr h)]
  · rintro rfl h
    simp only [getCachedResult, hl, beq_self_eq_true, Bool.not_true, Bool.false_eq_true,
      if_false, if_pos h]
  · intro h
    have hb : (net == net2) = false := beq_eq_false_iff_ne.mpr (Ne.symm h)
    simp only [getCachedResult, hl, hb, Bool.not_false, if_true]

theorem cache_roundtrip_witness :
    getCachedResult (cacheResult [] netDevnetStr 0 addrAStr assetsA) netDevnetStr 1 addrAStr =
      (some assetsA, cacheResult [] netDevnetStr 0 addrAStr assetsA) ∧
    getCachedResult (cacheResult [] netDevnetStr 0 addrAStr assetsA) netDevnetStr 300001 addrAStr =
      (none, eraseEntry (cacheResult [] netDevnetStr 0 addrAStr assetsA) addrAStr) ∧
    getCachedResult (cacheResult [] netDevnetStr 0 addrAStr assetsA) netTestnetStr 1 addrAStr =
      (none, cacheResult [] netDevnetStr 0 addrAStr assetsA) :=
  ⟨(cache_roundtrip [] netDevnetStr netDevnetStr addrAStr assetsA 0 1).1 rfl (by decide),
   (cache_roundtrip [] netDevnetStr netDevnetStr addrAStr assetsA 0 300001).2.1 rfl (by decide),
   (cache_roundtrip [] netDevnetStr netTestnetStr addrAStr assetsA 0 1).2.2 (by decide)⟩

/- ### C6 — token display metadata resolution (code bug) -/

def c6account : TokenAccount := { mint := bonkMint, amount := 5, decimals := 0 }

/-- C6 (code bug): the metadata table has an entry for the BONK mint, yet
`getTokenMetadata` lowercases its lookup key while the table keys are
mixed-case, so the lookup never succeeds: every allowlisted mint resolves to
no metadata and every scanned token is named "Unknown Token". -/
theorem getTokenMetadata_never_resolves :
    List.lookup bonkMint tokenMetadata = some { symbol := "BONK", name := "Bonk" } ∧
    getTokenMetadata bonkMint = none ∧
    (scanTokenAssets [c6account]).map ZombieAsset.name = [unknownTokenNameStr] ∧
    ∀ m ∈ ZOMBIE_TOKEN_MINTS, getTokenMetadata m = none := by
  refine ⟨rfl, by decide, ?_, by decide⟩
  rfl

/- ### C7 — failure semantics -/

def err403Msg : String := "403 Forbidden"

def errUnreachableMsg : String := "Failed to fetch"

theorem getCachedResult_cache_cases (cache : Cache) (net : String) (now : ℤ) (addr : String) :
    (getCachedResult cache net now addr).2 = cache ∨
    (getCachedResult cache net now addr).2 = eraseEntry cache addr := by
  unfold getCachedResult
  rcases List.lookup addr cache with _ | e
  · exact Or.inl rfl
  · dsimp only
    split
    · exact Or.inl rfl
    · split
      · exact Or.inr rfl
      · exact Or.inl rfl

/-- C7: when the initial holdings enumeration fails, the scan surfaces the
mapped human-readable message (timeout, access-denial and other ledger errors
map to pairwise-distinct strings) and never writes a cache entry — the cache
after the failed scan is the pre-scan cache, at most with an expired
entry evicted by the read. -/
theorem scanWallet_failure_no_cache_write (dpl : List String) (env : String)
    (resp : LedgerResponses) (cache : Cache) (net addr : String) (now : ℤ) (msg : String)
    (h : resp.tokenAccounts = .error msg) :
    scanWallet dpl env resp cache net addr now false =
      .failure (fetchErrorMessage msg) ((getCachedResult cache net now addr).2) ∧
    ((getCachedResult cache net now addr).2 = cache ∨
      (getCachedResult cache net now addr).2 = eraseEntry cache addr) ∧
    fetchErrorMessage rpcTimeoutRejectMsg = rpcTimeoutMsg ∧
    fetchErrorMessage err403Msg = rpcAccessDeniedMsg ∧
    fetchErrorMessage errUnreachableMsg = errUnreachableMsg ∧
    rpcTimeoutMsg ≠ rpcAccessDeniedMsg ∧
    rpcTimeoutMsg ≠ errUnreachableMsg ∧
    rpcAccessDeniedMsg ≠ errUnreachableMsg := by
  refine ⟨?_, getCachedResult_cache_cases cache net now addr,
    by decide, by decide, by decide, by decide, by decide, by decide⟩
  simp only [scanWallet, h, fetchTokenAccountsWithTimeout]
  simp

def respFail : LedgerResponses :=
  { tokenAccounts := .error rpcTimeoutRejectMsg, nftMeta := fun _ => none,
    prices := fun _ => none, dormancy := fun _ => -1, solBalance := 0 }

theorem scanWallet_failure_no_cache_write_witness :
    scanWallet [] strTrue respFail [] netDevnetStr addrAStr 0 false =
      .failure (fetchErrorMessage rpcTimeoutRejectMsg)
        ((getCachedResult [] netDevnetStr 0 addrAStr).2) :=
  (scanWallet_failure_no_cache_write [] strTrue respFail [] netDevnetStr addrAStr 0
    rpcTimeoutRejectMsg rfl).1

/- ### Shared lemmas about the scan pipeline -/

theorem scanTokenAssets_no_activity (accounts : List TokenAccount) :
    ∀ a ∈ scanTokenAssets accounts, a.lastActivityDaysAgo = none := by
  intro a ha
  unfold scanTokenAssets at ha
  rw [List.mem_filterMap] at ha
  obtain ⟨acc, -, hf⟩ := ha
  dsimp only at hf
  split at hf
  · exact Option.noConfusion hf
  · split at hf
    · cases hf
      rfl
    · exact Option.noConfusion hf

theorem scanNfts_type_nft (accounts : List TokenAccount) (meta : String → Option NftMeta) :
    ∀ a ∈ scanNfts accounts meta, a.type = .nft ∧ a.lastActivityDaysAgo = none := by
  intro a ha
  unfold scanNfts at ha
  rw [List.mem_filterMap] at ha
  obtain ⟨r, -, hf⟩ := ha
  dsimp only at hf
  split at hf
  · cases hf
    exact ⟨rfl, rfl⟩
  · split at hf
    · cases hf
      exact ⟨rfl, rfl⟩
    · exact Option.noConfusion hf

theorem scanTokenAssets_sourced (accounts : List TokenAccount) :
    ∀ a ∈ scanTokenAssets accounts,
      ∃ acc, acc ∈ accounts ∧ 0 < acc.amount ∧ a.mint = acc.mint := by
  intro a ha
  unfold scanTokenAssets at ha
  rw [List.mem_filterMap] at ha
  obtain ⟨acc, hmem, hf⟩ := ha
  dsimp only at hf
  split at hf
  · exact Option.noConfusion hf
  · split at hf
    · rename_i hcond
      cases hf
      exact ⟨acc, hmem, hcond.2, rfl⟩
    · exact Option.noConfusion hf

theorem classifyAndScoreScan_preserves (dpl : List String) (resp : LedgerResponses)
    (tm : List String) (a : ZombieAsset) :
    (classifyAndScoreScan dpl resp tm a).mint = a.mint ∧
    (classifyAndScoreScan dpl resp tm a).type = a.type := by
  unfold classifyAndScoreScan
  by_cases ht : a.type = .token <;> simp [ht]

theorem classifyAndScoreRefetch_preserves (dpl : List String) (resp : LedgerResponses)
    (a : ZombieAsset) :
    (classifyAndScoreRefetch dpl resp a).mint = a.mint ∧
    (classifyAndScoreRefetch dpl resp a).type = a.type := by
  unfold classifyAndScoreRefetch
  by_cases ht : a.type = .token <;> simp [ht]

theorem injectDevModeAssets_disabled (resp : LedgerResponses) (l : List ZombieAsset) :
    injectDevModeAssets strTrue resp l = l := rfl

theorem scanWallet_shape (dpl : List String) (env : String) (resp : LedgerResponses)
    (cache : Cache) (net addr : String) (now : ℤ) (sc : Bool) (accounts : List TokenAccount)
    (hacc : resp.tokenAccounts = .ok accounts) :
    scanWallet dpl env resp cache net addr now sc = .skipped (getCachedResult cache net now addr).2 ∨
    scanWallet dpl env resp cache net addr now sc =
      .success (injectDevModeAssets env resp (realScanAssets dpl resp accounts))
        (cacheResult (getCachedResult cache net now addr).2 net now addr
          (realScanAssets dpl resp accounts)) := by
  simp only [scanWallet, hacc]
  split
  · exact Or.inl rfl
  · exact Or.inr rfl

theorem scanWallet_success_shape (dpl : List String) (env : String) (resp : LedgerResponses)
    (cache : Cache) (net addr : String) (now : ℤ) (accounts : List TokenAccount)
    (hacc : resp.tokenAccounts = .ok accounts) :
    scanWallet dpl env resp cache net addr now false =
      .success (injectDevModeAssets env resp (realScanAssets dpl resp accounts))
        (cacheResult (getCachedResult cache net now addr).2 net now addr
          (realScanAssets dpl resp accounts)) := by
  have hcon : ¬ (((getCachedResult cache net now addr).1.isSome = true) ∧ false = true) := by
    intro h
    exact absurd h.2 (by decide)
  simp only [scanWallet, hacc]
  rw [if_neg hcon]
  rfl

theorem refetchWallet_shape (dpl : List String) (env : String) (resp : LedgerResponses)
    (cache : Cache) (net addr : String) (now : ℤ) (accounts : List TokenAccount)
    (hacc : resp.tokenAccounts = .ok accounts) :
    refetchWallet dpl env resp cache net addr now =
      .success (injectDevModeAssets env resp (realRefetchAssets dpl resp accounts))
        (cacheResult (eraseEntry cache addr) net now addr (realRefetchAssets dpl resp accounts)) := by
  simp only [refetchWallet, hacc]
  rfl

theorem classifyAndScore_eq_of_no_dormancy (dpl : List String) (resp : LedgerResponses)
    (tm : List String) (a : ZombieAsset) (hd : ∀ m, resp.dormancy m = -1)
    (ha : a.lastActivityDaysAgo = none) :
    classifyAndScoreScan dpl resp tm a = classifyAndScoreRefetch dpl resp a := by
  obtain ⟨ty, mint, nm, sym, bal, st, cat, zs, uv, la⟩ := a
  simp only at ha
  subst ha
  cases ty
  · have hneg : ¬ ((0:ℤ) ≤ -1) := by decide
    simp [classifyAndScoreScan, classifyAndScoreRefetch, hd, hneg]
  · simp [classifyAndScoreScan, classifyAndScoreRefetch]

/- ### C5 — refetch vs scan -/

def acc1 : TokenAccount := { mint := bonkMint, amount := 1, decimals := 0 }

def resp5 : LedgerResponses :=
  { tokenAccounts := .ok [acc1], nftMeta := fun _ => none, prices := fun _ => none,
    dormancy := fun _ => 180, solBalance := 0 }

def firstAssetActivity (o : Option (List ZombieAsset)) : Option ℕ :=
  match o with
  | some (a :: _) => a.lastActivityDaysAgo
  | _ => none

/-- C5 counterexample: for one allowlisted token account and a ledger reporting
180 days of dormancy, the normal scan records `lastActivityDaysAgo = 180` on
the returned asset while the manual refresh leaves it unset (the refresh never
performs the dormancy lookup), so the two operations return different
classified/scored asset sequences on identical ledger, price and metadata
responses. -/
theorem refetch_differs_from_scan_counterexample :
    firstAssetActivity (scanOutcomeAssets
      (scanWallet [] strTrue resp5 [] netDevnetStr addrAStr 0 false)) = some 180 ∧
    firstAssetActivity (scanOutcomeAssets
      (refetchWallet [] strTrue resp5 [] netDevnetStr addrAStr 0)) = none ∧
    scanOutcomeAssets (scanWallet [] strTrue resp5 [] netDevnetStr addrAStr 0 false) ≠
      scanOutcomeAssets (refetchWallet [] strTrue resp5 [] netDevnetStr addrAStr 0) := by
  have h1 : firstAssetActivity (scanOutcomeAssets
      (scanWallet [] strTrue resp5 [] netDevnetStr addrAStr 0 false)) = some 180 := rfl
  have h2 : firstAssetActivity (scanOutcomeAssets
      (refetchWallet [] strTrue resp5 [] netDevnetStr addrAStr 0)) = none := rfl
  refine ⟨h1, h2, fun h => ?_⟩
  have h3 := congrArg firstAssetActivity h
  rw [h1, h2] at h3
  exact Option.noConfusion h3

/-- C5 amended: the manual refresh follows the same algorithm as the scan with
two differences — it bypasses the cache check (deleting the entry up front)
and it also skips the dormancy lookup, classifying every token with dormancy 0
and leaving `lastActivityDaysAgo` unset.  Whenever the dormancy probe yields
no information (-1 everywhere), scan and refresh produce the same classified
and scored sequence and write the same cache entry. -/
theorem refetch_matches_scan_when_dormancy_unknown (dpl : List String) (env : String)
    (resp : LedgerResponses) (cache : Cache) (net addr : String) (now : ℤ)
    (accounts : List TokenAccount) (hacc : resp.tokenAccounts = .ok accounts)
    (hd : ∀ m, resp.dormancy m = -1) :
    scanOutcomeAssets (scanWallet dpl env resp cache net addr now false) =
      scanOutcomeAssets (refetchWallet dpl env resp cache net addr now) ∧
    List.lookup addr (scanOutcomeCache (scanWallet dpl env resp cache net addr now false)) =
      List.lookup addr (scanOutcomeCache (refetchWallet dpl env resp cache net addr now)) := by
  have hreal : realScanAssets dpl resp accounts = realRefetchAssets dpl resp accounts := by
    simp only [realScanAssets, realRefetchAssets]
    apply List.map_congr_left
    intro a ha
    apply classifyAndScore_eq_of_no_dormancy dpl resp _ a hd
    rcases List.mem_append.mp ha with h | h
    · exact scanTokenAssets_no_activity accounts a h
    · exact (scanNfts_type_nft accounts resp.nftMeta a h).2
  rw [scanWallet_success_shape dpl env resp cache net addr now accounts hacc,
      refetchWallet_shape dpl env resp cache net addr now accounts hacc, hreal]
  refine ⟨rfl, ?_⟩
  simp only [scanOutcomeCache]
  rw [lookup_cacheResult, lookup_cacheResult]

def respNoDorm : LedgerResponses :=
  { tokenAccounts := .ok [acc1], nftMeta := fun _ => none, prices := fun _ => none,
    dormancy := fun _ => -1, solBalance := 0 }

theorem refetch_matches_scan_when_dormancy_unknown_witness :
    scanOutcomeAssets (scanWallet [] strTrue respNoDorm [] netDevnetStr addrAStr 0 false) =
      scanOutcomeAssets (refetchWallet [] strTrue respNoDorm [] netDevnetStr addrAStr 0) ∧
    List.lookup addrAStr (scanOutcomeCache
      (scanWallet [] strTrue respNoDorm [] netDevnetStr addrAStr 0 false)) =
    List.lookup addrAStr (scanOutcomeCache
      (refetchWallet [] strTrue respNoDorm [] netDevnetStr addrAStr 0)) :=
  refetch_matches_scan_when_dormancy_unknown [] strTrue respNoDorm [] netDevnetStr addrAStr 0
    [acc1] rfl (fun _ => rfl)

/- ### C8 — zero-amount holdings and decode provenance -/

def resp8 : LedgerResponses :=
  { tokenAccounts := .ok [], nftMeta := fun _ => none, prices := fun _ => none,
    dormancy := fun _ => -1, solBalance := mkRat 3 5 }

/-- C8 counterexample: with demo injection active (the default: the disable
variable is not "true") and a wallet holding no token accounts at all but
0.6 SOL, the scan returns a mock BONK token asset that was not decoded from
any account — refuting "every returned token asset was decoded from an
account with amount strictly greater than zero" as stated. -/
theorem scan_zero_amount_decode_counterexample :
    ¬ (∀ l, scanOutcomeAssets (scanWallet [] emptyStr resp8 [] netDevnetStr addrAStr 0 false) =
          some l →
        ∀ a ∈ l, a.type = .token →
          ∃ acc, acc ∈ ([] : List TokenAccount) ∧ 0 < acc.amount ∧ a.mint = acc.mint) := by
  intro h
  obtain ⟨acc, hacc, -⟩ :=
    h [mkMockToken bonkMint nameBonkStr symBonkStr 1000000] rfl
      (mkMockToken bonkMint nameBonkStr symBonkStr 1000000) (List.mem_singleton.mpr rfl) rfl
  exact absurd hacc (List.not_mem_nil acc)

/-- C8 amended: with demo-asset injection disabled (VITE_DISABLE_DEMO_ASSETS =
"true"; injected demo assets are the only exception otherwise), every token
asset returned by a scan or a refresh was decoded from an account with amount
strictly greater than zero — zero-amount holdings never appear. -/
theorem scan_token_assets_decoded_positive (dpl : List String) (resp : LedgerResponses)
    (cache : Cache) (net addr : String) (now : ℤ) (sc : Bool) (accounts : List TokenAccount)
    (hacc : resp.tokenAccounts = .ok accounts) :
    (∀ l, scanOutcomeAssets (scanWallet dpl strTrue resp cache net addr now sc) = some l →
      ∀ a ∈ l, a.type = .token →
        ∃ acc, acc ∈ accounts ∧ 0 < acc.amount ∧ a.mint = acc.mint) ∧
    (∀ l, scanOutcomeAssets (refetchWallet dpl strTrue resp cache net addr now) = some l →
      ∀ a ∈ l, a.type = .token →
        ∃ acc, acc ∈ accounts ∧ 0 < acc.amount ∧ a.mint = acc.mint) := by
  constructor
  · intro l hl a hal hat
    rcases scanWallet_shape dpl strTrue resp cache net addr now sc accounts hacc with hc | hc
    · rw [hc] at hl
      exact Option.noConfusion hl
    · rw [hc] at hl
      simp only [scanOutcomeAssets, injectDevModeAssets_disabled, Option.some.injEq] at hl
      subst hl
      simp only [realScanAssets] at hal
      obtain ⟨b, hb, rfl⟩ := List.mem_map.mp hal
      rcases List.mem_append.mp hb with hbm | hbm
      · obtain ⟨acc, h1, h2, h3⟩ := scanTokenAssets_sourced accounts b hbm
        refine ⟨acc, h1, h2, ?_⟩
        rw [(classifyAndScoreScan_preserves dpl resp _ b).1, h3]
      · rw [(classifyAndScoreScan_preserves dpl resp _ b).2,
            (scanNfts_type_nft accounts resp.nftMeta b hbm).1] at hat
        exact absurd hat (by decide)
  · intro l hl a hal hat
    rw [refetchWallet_shape dpl strTrue resp cache net addr now accounts hacc] at hl
    simp only [scanOutcomeAssets, injectDevModeAssets_disabled, Option.some.injEq] at hl
    subst hl
    simp only [realRefetchAssets] at hal
    obtain ⟨b, hb, rfl⟩ := List.mem_map.mp hal
    have hp := classifyAndScoreRefetch_preserves dpl resp b
    rcases List.mem_append.mp hb with hbm | hbm
    · obtain ⟨acc, h1, h2, h3⟩ := scanTokenAssets_sourced accounts b hbm
      exact ⟨acc, h1, h2, by rw [hp.1, h3]⟩
    · have hn := (scanNfts_type_nft accounts resp.nftMeta b hbm).1
      rw [hp.2, hn] at hat
      exact absurd hat (by decide)

def respEmpty : LedgerResponses :=
  { tokenAccounts := .ok [], nftMeta := fun _ => none, prices := fun _ => none,
    dormancy := fun _ => -1, solBalance := 0 }

theorem scan_token_assets_decoded_positive_witness :
    scanOutcomeAssets (scanWallet [] strTrue respEmpty [] netDevnetStr addrAStr 0 false) =
      some [] ∧
    (∀ a ∈ ([] : List ZombieAsset), a.type = .token →
      ∃ acc, acc ∈ ([] : List TokenAccount) ∧ 0 < acc.amount ∧ a.mint = acc.mint) :=
  ⟨rfl, (scan_token_assets_decoded_positive [] respEmpty [] netDevnetStr addrAStr 0 false []
    rfl).1 [] rfl⟩

/- ### C10 — demo-mode injection and cache purity -/

/-- C10: when the holdings enumeration succeeds, the scan returns the real
scanned assets with demo mock assets appended — selected by the SOL-balance
tier table and deduplicated by (mint, type) — unless VITE_DISABLE_DEMO_ASSETS
is "true", while the cache entry it writes always holds exactly the real
scanned assets, never the injected mocks. -/
theorem scanWallet_demo_injection_cache_purity (dpl : List String) (env : String)
    (resp : LedgerResponses) (cache : Cache) (net addr : String) (now : ℤ)
    (accounts : List TokenAccount) (hacc : resp.tokenAccounts = .ok accounts) :
    scanWallet dpl env resp cache net addr now false =
      .success (injectDevModeAssets env resp (realScanAssets dpl resp accounts))
        (cacheResult (getCachedResult cache net now addr).2 net now addr
          (realScanAssets dpl resp accounts)) ∧
    (env ≠ strTrue →
      injectDevModeAssets env resp (realScanAssets dpl resp accounts) =
        (getMockAssetsForBalance resp.solBalance).foldl
          (fun combined m =>
            if combined.any fun a => decide (a.mint = m.mint ∧ a.type = m.type) then combined
            else combined ++ [m])
          (realScanAssets dpl resp accounts)) ∧
    (env = strTrue →
      injectDevModeAssets env resp (realScanAssets dpl resp accounts) =
        realScanAssets dpl resp accounts) ∧
    List.lookup addr
        (cacheResult (getCachedResult cache net now addr).2 net now addr
          (realScanAssets dpl resp accounts)) =
      some { assets := realScanAssets dpl resp accounts, timestamp := now, network := net } := by
  refine ⟨scanWallet_success_shape dpl env resp cache net addr now accounts hacc, ?_, ?_,
    lookup_cacheResult _ _ _ _ _⟩
  · intro h
    have hb : (env == strTrue) = false := beq_eq_false_iff_ne.mpr h
    simp [injectDevModeAssets, isDevModeEnabled, hb]
  · intro h
    subst h
    exact injectDevModeAssets_disabled resp _

def respDemo : LedgerResponses :=
  { tokenAccounts := .ok [], nftMeta := fun _ => none, prices := fun _ => none,
    dormancy := fun _ => -1, solBalance := 3 }

theorem scanWallet_demo_injection_cache_purity_witness :
    scanWallet [] emptyStr respDemo [] netDevnetStr addrAStr 0 false =
      .success (injectDevModeAssets emptyStr respDemo (realScanAssets [] respDemo []))
        (cacheResult (getCachedResult [] netDevnetStr 0 addrAStr).2 netDevnetStr 0 addrAStr
          (realScanAssets [] respDemo [])) :=
  (scanWallet_demo_injection_cache_purity [] emptyStr respDemo [] netDevnetStr addrAStr 0 []
    rfl).1

end ZombieYield
